import Mathlib

/-!
Verification of the seeker-automations deduplication engine and pipeline
orchestrator against its natural-language specification.

The development shallowly embeds the Python sources:
  * src/dedupe.py   (Deduplicator.check_duplicates, embedding cache, scorer)
  * src/pipeline.py (Pipeline.process_text / process_audio / _process_text_internal)
  * src/templates.py (TemplateEngine.format_all dictionary and the per-platform loop)
  * config/settings.py (default dedupe threshold)

Python floats are modelled as rationals inside the deduplicator (every claim
about it concerns only comparisons and score flow), and as reals in the
cosine-similarity scorer where square roots occur.  External network calls
(the OpenAI embedding endpoint, Anthropic classification, the Notion record
store) are modelled as explicit function parameters; fallible calls return
an Except value whose error component is the exception message.
-/

namespace Seeker

/-- A similar item found in the database (src/dedupe.py, SimilarityMatch). -/
structure SimilarityMatch where
  page_id : String
  title : String
  similarity_score : ℚ
  database : String
deriving Repr, DecidableEq

/-- Result of a deduplication check (src/dedupe.py, DedupeResult).
The is_duplicate field is computed in Python as
"best_match and best_match.similarity_score >= threshold", whose value is
None when best_match is None and a bool otherwise; it is therefore modelled
as an Option Bool (none = Python None). -/
structure DedupeResult where
  is_duplicate : Option Bool
  «matches» : List SimilarityMatch
  best_match : Option SimilarityMatch
  recommendation : String
deriving Repr, DecidableEq

/-- A candidate row passed to check_duplicates: a Python dict with a
required "page_id" key and optional "title", "text", "database" keys
(absent keys are none). -/
structure Cand where
  page_id : String
  title : Option String
  text : Option String
  database : Option String
deriving Repr, DecidableEq

/-- The embedding cache of a Deduplicator instance: page_id -> embedding
(src/dedupe.py line 50).  A Python dict, modelled as an association list
whose most recent insertion wins on lookup. -/
def Cache (Emb : Type) : Type := List (String × Emb)

/-- Threshold resolution, line 88 of src/dedupe.py:
"threshold = threshold or self.threshold".  Python "or" takes the default
not only for None but for any falsy float, in particular 0.0. -/
def effectiveThreshold (threshold : Option ℚ) (d : ℚ) : ℚ :=
  match threshold with
  | none => d
  | some t => if t = 0 then d else t

/-- Default similarity threshold from config/settings.py line 35
(environment default "0.85"). -/
def dedupe_threshold_default : ℚ := 85 / 100

/-- Deduplicator.get_embedding (lines 52-62): truncates the text to 8000
characters and calls the embedding provider (the OpenAI API, modelled as
the function parameter). -/
def get_embedding {Emb : Type} (provider : String → Emb) (text : String) : Emb :=
  provider (text.take 8000)

/-- The get-or-compute cache access inlined at lines 100-104 of
check_duplicates.  Returns the embedding, the updated cache, and the list
of identifiers for which the provider was invoked (empty on a cache hit). -/
def getOrCompute {Emb : Type} (provider : String → Emb) (cache : Cache Emb)
    (page_id text : String) : Emb × Cache Emb × List String :=
  match List.lookup page_id cache with
  | some e => (e, cache, [])
  | none =>
    let e := get_embedding provider text
    (e, (page_id, e) :: cache, [page_id])

/-- The comparable text of a candidate, line 103:
item.get("text", item.get("title", "")). -/
def itemText (item : Cand) : String :=
  (item.text).getD ((item.title).getD "")

/-- Construction of a SimilarityMatch from a candidate and its score,
lines 110-115: item.get("title", "Untitled"), item.get("database", "unknown"). -/
def mkMatch (item : Cand) (score : ℚ) : SimilarityMatch :=
  { page_id := item.page_id
    title := (item.title).getD "Untitled"
    similarity_score := score
    database := (item.database).getD "unknown" }

/-- The candidate loop of check_duplicates, lines 96-115: for each item,
obtain its embedding through the cache, score it against the new text's
embedding with sim (compute_similarity), and keep it only when
score >= threshold * 0.8.  Returns the kept matches in candidate order,
the final cache, and the identifiers for which the provider was invoked. -/
def scanItems {Emb : Type} (sim : Emb → Emb → ℚ) (provider : String → Emb)
    (newEmb : Emb) (floor : ℚ) :
    List Cand → Cache Emb → List SimilarityMatch × Cache Emb × List String
  | [], cache => ([], cache, [])
  | item :: rest, cache =>
    let step := getOrCompute provider cache item.page_id (itemText item)
    let score := sim newEmb step.1
    let tail := scanItems sim provider newEmb floor rest step.2.1
    (if floor ≤ score then mkMatch item score :: tail.1 else tail.1,
      tail.2.1, step.2.2 ++ tail.2.2)

/-- Descending order on similarity scores: the comparator realising
Python's matches.sort(key=score, reverse=True) at line 118. -/
def simGE (a b : SimilarityMatch) : Prop :=
  b.similarity_score ≤ a.similarity_score

instance : DecidableRel simGE := fun a b =>
  inferInstanceAs (Decidable (b.similarity_score ≤ a.similarity_score))

instance : IsTotal SimilarityMatch simGE :=
  ⟨fun a b => le_total b.similarity_score a.similarity_score⟩

instance : IsTrans SimilarityMatch simGE :=
  ⟨fun _ _ _ h1 h2 => le_trans h2 h1⟩

/-- Output of one check_duplicates call: the returned DedupeResult plus
the Deduplicator's mutated cache state and the provider-invocation log. -/
structure CheckOutput (Emb : Type) where
  result : DedupeResult
  cache : Cache Emb
  calls : List String

/-- Deduplicator.check_duplicates (src/dedupe.py lines 71-142), with the
external collaborators explicit: sim is compute_similarity (whose concrete
real-valued definition is compute_similarity below), provider is the
OpenAI embedding call, d is the configured default threshold
(self.threshold) and cache the instance's embedding cache. -/
def check_duplicates {Emb : Type} (sim : Emb → Emb → ℚ) (provider : String → Emb)
    (d : ℚ) (cache : Cache Emb) (new_text : String) (existing_items : List Cand)
    (threshold : Option ℚ) : CheckOutput Emb :=
  let t := effectiveThreshold threshold d
  let new_embedding := get_embedding provider new_text
  let scan := scanItems sim provider new_embedding (t * (8 / 10)) existing_items cache
  let sortedMatches := List.insertionSort simGE scan.1
  let best_match := sortedMatches.head?
  let is_duplicate := best_match.map (fun m => decide (t ≤ m.similarity_score))
  let recommendation :=
    match best_match with
    | none => "create_new"
    | some m =>
      if (95 : ℚ) / 100 ≤ m.similarity_score then "skip"
      else if t ≤ m.similarity_score then "append_to"
      else if t * (8 / 10) ≤ m.similarity_score then "review"
      else "create_new"
  { result :=
      { is_duplicate := is_duplicate
        «matches» := sortedMatches.take 5
        best_match := best_match
        recommendation := recommendation }
    cache := scan.2.1
    calls := scan.2.2 }

/-- Deduplicator.clear_cache (lines 178-180): empties the embedding cache. -/
def clear_cache {Emb : Type} (_cache : Cache Emb) : Cache Emb := []

/-- The score assigned to each candidate by the loop of check_duplicates
(lines 96-107), with the embedding cache threaded exactly as in scanItems:
a specification device used to state the inclusion-filter claim. -/
def itemScores {Emb : Type} (sim : Emb → Emb → ℚ) (provider : String → Emb)
    (newEmb : Emb) : List Cand → Cache Emb → List (Cand × ℚ)
  | [], _ => []
  | item :: rest, cache =>
    let step := getOrCompute provider cache item.page_id (itemText item)
    (item, sim newEmb step.1) :: itemScores sim provider newEmb rest step.2.1

/-- Dot product of two vectors, truncating to the shorter length
(both callers pass equal-length embeddings). -/
noncomputable def dotList (a b : List ℝ) : ℝ := (List.zipWith (fun x y => x * y) a b).sum

/-- Sum of squared entries of a vector. -/
noncomputable def sumSq (a : List ℝ) : ℝ := (a.map (fun x => x * x)).sum

/-- Euclidean magnitude of a vector. -/
noncomputable def magnitude (a : List ℝ) : ℝ := Real.sqrt (sumSq a)

/-- Row norm as used by sklearn's normalize: a zero norm is replaced by 1
so that an all-zero row stays all-zero instead of dividing by zero. -/
noncomputable def normOr1 (a : List ℝ) : ℝ := if magnitude a = 0 then 1 else magnitude a

/-- Deduplicator.compute_similarity (src/dedupe.py lines 64-69): cosine
similarity of the two embeddings via sklearn's cosine_similarity, which
normalizes each vector with zero norms replaced by 1. -/
noncomputable def compute_similarity (a b : List ℝ) : ℝ :=
  dotList a b / (normOr1 a * normOr1 b)

/-- Result of content classification (src/classify.py, ClassificationResult). -/
structure ClassificationResult where
  title : String
  content_type : String
  priority : String
  category : String
  tags : List String
  main_idea : String
  atomic_ideas : List String
  suggested_platforms : Option (List String) := none
  related_concepts : Option (List String) := none
deriving Repr, DecidableEq

/-- A row returned by NotionClient.query_inbox as consumed by the pipeline
(src/pipeline.py lines 165-171: item["id"], item["title"]). -/
structure InboxRow where
  id : String
  title : String
deriving Repr, DecidableEq

/-- A row returned by NotionClient.query_content_objects as consumed by the
pipeline (lines 172-178: item["id"], item["name"], item.get("main_idea")). -/
structure ContentRow where
  id : String
  name : String
  main_idea : Option String
deriving Repr, DecidableEq

/-- Schema for Inbox database items (config/notion_schema.py, InboxItem).
The date_added field (wall-clock datetime.now) is omitted from the model. -/
structure InboxItem where
  title : String
  status : String := "New"
  tags : List String := []
  type : Option String := none
  project : Option String := none
  url : Option String := none
  raw_transcript : Option String := none
  source_file : Option String := none
deriving Repr, DecidableEq

/-- Response of NotionClient.create_inbox_item as consumed by the pipeline
(line 210: response["id"]). -/
structure CreateResponse where
  id : String
deriving Repr, DecidableEq

/-- The context dict passed to Refiner.refine (src/pipeline.py lines 219-223). -/
structure RefineContext where
  title : String
  category : String
  tags : List String
deriving Repr, DecidableEq

/-- Response of Transcriber.transcribe as consumed by process_audio
(line 90: transcription["text"]). -/
structure TranscriptionResult where
  text : String
deriving Repr, DecidableEq

/-- Result of running the full pipeline (src/pipeline.py, PipelineResult).
R is the RefinedContent type and O the PlatformOutput type produced by the
refine/template collaborators; processing_time_ms (wall clock) is omitted. -/
structure PipelineResult (R O : Type) where
  success : Bool
  stage_reached : String
  error : Option String := none
  transcript : Option String := none
  classification : Option ClassificationResult := none
  dedupe_result : Option DedupeResult := none
  notion_page_id : Option String := none
  refined_content : Option R := none
  platform_outputs : List (String × O) := []
  input_type : String := "text"
deriving DecidableEq

/-- The external collaborators of the pipeline orchestrator, each fallible
call returning Except with the exception message on failure.  The four
format fields are the leaf formatters of templates.py (pure
string-templating whose output content no claim inspects); today stands
for datetime.now().strftime of the current date. -/
structure Collabs (R O : Type) where
  transcribe : String → Except String TranscriptionResult
  classify : String → Option String → Except String ClassificationResult
  query_inbox : Nat → Except String (List InboxRow)
  query_content_objects : Nat → Except String (List ContentRow)
  check_duplicates : String → List Cand → Except String DedupeResult
  append_to_page : String → String → String → Except String Unit
  create_inbox_item : InboxItem → Except String CreateResponse
  refine : String → RefineContext → Except String R
  format_twitter_thread : R → Except String O
  format_linkedin : R → Except String O
  format_substack : R → Except String O
  format_video_script : R → Except String O
  today : String

/-- Construction of the existing-items candidate list for the dedupe stage
(src/pipeline.py lines 164-178). -/
def existingOf (inbox_items : List InboxRow) (content_items : List ContentRow) :
    List Cand :=
  inbox_items.map (fun item =>
    { page_id := item.id
      title := some item.title
      text := some item.title
      database := some "inbox" }) ++
  content_items.map (fun item =>
    { page_id := item.id
      title := some item.name
      text := some (item.name ++ " " ++ item.main_idea.getD "")
      database := some "content_objects" })

/-- TemplateEngine.format_all (src/templates.py lines 314-321): the
dictionary with exactly the four platform keys, each produced by the
corresponding leaf formatter. -/
def format_all {R O : Type} (C : Collabs R O) (refined : R) :
    Except String (List (String × O)) := do
  let tw ← C.format_twitter_thread refined
  let li ← C.format_linkedin refined
  let su ← C.format_substack refined
  let vi ← C.format_video_script refined
  return [("twitter_thread", tw), ("linkedin", li), ("substack", su),
    ("video_script", vi)]

/-- The per-platform template loop (src/pipeline.py lines 230-236): for
each requested platform, re-invoke format_all inside a try block; an
exception is logged as a warning and the loop continues; a missing
dictionary key (unknown platform) yields None, which the "if output:"
check silently skips.  Returns the populated outputs and the warning log. -/
def templateLoop {R O : Type} (C : Collabs R O) (refined : R) :
    List String → List (String × O) × List String
  | [] => ([], [])
  | platform :: rest =>
    let tail := templateLoop C refined rest
    match format_all C refined with
    | .error e =>
      (tail.1, ("Failed to generate " ++ platform ++ " template: " ++ e) :: tail.2)
    | .ok outputs =>
      match List.lookup platform outputs with
      | some output => ((platform, output) :: tail.1, tail.2)
      | none => (tail.1, tail.2)

/-- Stage 4 of the pipeline (src/pipeline.py lines 184-210): the Notion
action chosen by the dedupe recommendation, returning the page id on
success.  Accessing best_match.page_id when best_match is None raises an
AttributeError in Python, modelled as an error value. -/
def notionAction {R O : Type} (C : Collabs R O) (text : String)
    (dres : DedupeResult) (classification : ClassificationResult) :
    Except String String :=
  if dres.recommendation = "skip" then
    match dres.best_match with
    | none => .error "AttributeError: NoneType object has no attribute page_id"
    | some m => .ok m.page_id
  else if dres.recommendation = "append_to" then
    match dres.best_match with
    | none => .error "AttributeError: NoneType object has no attribute page_id"
    | some m =>
      match C.append_to_page m.page_id text
        ("Additional notes (" ++ C.today ++ ")") with
      | .error e => .error e
      | .ok _ => .ok m.page_id
  else
    match C.create_inbox_item
      { title := classification.title
        status := "New"
        tags := classification.tags
        type := some classification.content_type
        raw_transcript := some text } with
    | .error e => .error e
    | .ok response => .ok response.id

/-- Stages 5 and 6 (src/pipeline.py lines 214-239): optional refine, then
the optional template loop (the Python "if platforms:" truthiness check
skips both None and the empty list), then success := True. -/
def refineAndTemplate {R O : Type} (C : Collabs R O) (text : String)
    (classification : ClassificationResult) (auto_refine : Bool)
    (platforms : Option (List String)) (result : PipelineResult R O) :
    PipelineResult R O × List String :=
  if auto_refine then
    match C.refine text
      { title := classification.title
        category := classification.category
        tags := classification.tags } with
    | .error e => ({ result with error := some e }, [])
    | .ok refined =>
      let result := { result with
        refined_content := some refined
        stage_reached := "refine" }
      match platforms with
      | some (p :: ps) =>
        let lt := templateLoop C refined (p :: ps)
        ({ result with
            platform_outputs := result.platform_outputs ++ lt.1
            stage_reached := "template"
            success := true }, lt.2)
      | _ => ({ result with success := true }, [])
  else ({ result with success := true }, [])

/-- Pipeline._process_text_internal (src/pipeline.py lines 141-246): the
staged orchestration under one try block; the first exception is caught,
its message recorded in error, and the accumulated result returned with
stage_reached frozen at the last completed stage.  The second component is
the warning log of the template loop. -/
def processTextInternal {R O : Type} (C : Collabs R O) (text : String)
    (source_context : Option String) (auto_refine : Bool)
    (platforms : Option (List String)) (result : PipelineResult R O) :
    PipelineResult R O × List String :=
  match C.classify text source_context with
  | .error e => ({ result with error := some e }, [])
  | .ok classification =>
    let result := { result with
      classification := some classification
      stage_reached := "classify" }
    match C.query_inbox 50 with
    | .error e => ({ result with error := some e }, [])
    | .ok inbox_items =>
      match C.query_content_objects 50 with
      | .error e => ({ result with error := some e }, [])
      | .ok content_items =>
        match C.check_duplicates text (existingOf inbox_items content_items) with
        | .error e => ({ result with error := some e }, [])
        | .ok dres =>
          let result := { result with
            dedupe_result := some dres
            stage_reached := "dedupe" }
          match notionAction C text dres classification with
          | .error e => ({ result with error := some e }, [])
          | .ok page_id =>
            let result := { result with
              notion_page_id := some page_id
              stage_reached := "notion" }
            refineAndTemplate C text classification auto_refine platforms result

/-- Pipeline.process_text (src/pipeline.py lines 109-139). -/
def process_text {R O : Type} (C : Collabs R O) (text : String)
    (source_context : Option String) (auto_refine : Bool)
    (platforms : Option (List String)) : PipelineResult R O × List String :=
  processTextInternal C text source_context auto_refine platforms
    { success := false, stage_reached := "init", input_type := "text"
      transcript := some text }

/-- Basename of a path, modelling Path(audio_path).name. -/
def pathName (p : String) : String := ((p.splitOn "/").getLast?).getD p

/-- Pipeline.process_audio (src/pipeline.py lines 66-107): transcribe, then
continue with the internal text processing; a transcription failure is
caught with stage_reached still at init. -/
def process_audio {R O : Type} (C : Collabs R O) (audio_path : String)
    (auto_refine : Bool) (platforms : Option (List String)) :
    PipelineResult R O × List String :=
  let result : PipelineResult R O :=
    { success := false, stage_reached := "init", input_type := "audio" }
  match C.transcribe audio_path with
  | .error e => ({ result with error := some e }, [])
  | .ok transcription =>
    let result := { result with
      transcript := some transcription.text
      stage_reached := "transcribe" }
    processTextInternal C transcription.text
      (some ("voice memo: " ++ pathName audio_path)) auto_refine platforms result

/-- A classification value used by the concrete example collaborators. -/
def exampleClassification : ClassificationResult :=
  { title := "T", content_type := "Post", priority := "Active",
    category := "Other", tags := [], main_idea := "", atomic_ideas := [] }

/-- Example collaborators whose external calls all succeed. -/
def collabsOk : Collabs Unit Unit :=
  { transcribe := fun _ => .ok { text := "t" }
    classify := fun _ _ => .ok exampleClassification
    query_inbox := fun _ => .ok []
    query_content_objects := fun _ => .ok []
    check_duplicates := fun _ _ => .ok
      { is_duplicate := none, «matches» := [], best_match := none,
        recommendation := "create_new" }
    append_to_page := fun _ _ _ => .ok ()
    create_inbox_item := fun _ => .ok { id := "new-page" }
    refine := fun _ _ => .ok ()
    format_twitter_thread := fun _ => .ok ()
    format_linkedin := fun _ => .ok ()
    format_substack := fun _ => .ok ()
    format_video_script := fun _ => .ok ()
    today := "2026-10-12" }

/-- Example collaborators identical to collabsOk except that the record
store's create call fails. -/
def collabsCreateFails : Collabs Unit Unit :=
  { collabsOk with create_inbox_item := fun _ => .error "boom" }

/-- Taking the first five elements preserves the head of a list. -/
theorem head?_take_five {α : Type} (l : List α) : (l.take 5).head? = l.head? := by
  cases l <;> rfl

/-- The recommendation returned by check_duplicates is the banded function
of the returned best match (definitional unfolding). -/
theorem rec_of_best {Emb : Type} (sim : Emb → Emb → ℚ) (provider : String → Emb)
    (d : ℚ) (cache : Cache Emb) (new_text : String) (items : List Cand)
    (threshold : Option ℚ) :
    (check_duplicates sim provider d cache new_text items threshold).result.recommendation
      = match (check_duplicates sim provider d cache new_text items threshold).result.best_match with
        | none => "create_new"
        | some m =>
          if (95 : ℚ) / 100 ≤ m.similarity_score then "skip"
          else if effectiveThreshold threshold d ≤ m.similarity_score then "append_to"
          else if effectiveThreshold threshold d * (8 / 10) ≤ m.similarity_score then "review"
          else "create_new" := rfl

/-- The match list produced by the candidate loop is the filter of the
scored candidates by the inclusion floor. -/
theorem scan_eq_filterMap {Emb : Type} (sim : Emb → Emb → ℚ) (provider : String → Emb)
    (newEmb : Emb) (floor : ℚ) (items : List Cand) :
    ∀ (cache : Cache Emb),
      (scanItems sim provider newEmb floor items cache).1
        = (itemScores sim provider newEmb items cache).filterMap
            (fun p => if floor ≤ p.2 then some (mkMatch p.1 p.2) else none) := by
  induction items with
  | nil => intro cache; rfl
  | cons item rest ih =>
    intro cache
    simp only [scanItems, itemScores, List.filterMap_cons]
    by_cases h : floor ≤ sim newEmb (getOrCompute provider cache item.page_id (itemText item)).1
    · simp [h, ih]
    · simp [h, ih]

/-- Every match kept by the candidate loop scored at or above the floor. -/
theorem mem_scan_floor {Emb : Type} (sim : Emb → Emb → ℚ) (provider : String → Emb)
    (newEmb : Emb) (floor : ℚ) (items : List Cand) (cache : Cache Emb)
    (m : SimilarityMatch)
    (hm : m ∈ (scanItems sim provider newEmb floor items cache).1) :
    floor ≤ m.similarity_score := by
  rw [scan_eq_filterMap] at hm
  rcases List.mem_filterMap.mp hm with ⟨p, _, hp⟩
  by_cases h : floor ≤ p.2
  · rw [if_pos h] at hp
    cases hp
    exact h
  · rw [if_neg h] at hp
    cases hp

/-- Looking a key up after consing an entry stays successful. -/
theorem lookup_cons_isSome {Emb : Type} (key pid : String) (e : Emb)
    (cache : Cache Emb) (h : (List.lookup key cache).isSome) :
    (List.lookup key ((pid, e) :: cache)).isSome := by
  simp only [List.lookup]
  split
  · rfl
  · exact h

/-- A key already cached stays cached through the candidate loop. -/
theorem scan_cache_mono {Emb : Type} (sim : Emb → Emb → ℚ) (provider : String → Emb)
    (newEmb : Emb) (floor : ℚ) (items : List Cand) :
    ∀ (cache : Cache Emb) (key : String), (List.lookup key cache).isSome →
      (List.lookup key (scanItems sim provider newEmb floor items cache).2.1).isSome := by
  induction items with
  | nil => intro cache key h; exact h
  | cons item rest ih =>
    intro cache key h
    simp only [scanItems, getOrCompute]
    rcases hl : List.lookup item.page_id cache with _ | e
    · exact ih _ _ (lookup_cons_isSome _ _ _ _ h)
    · exact ih _ _ h

/-- A key already cached triggers no provider invocation in the loop. -/
theorem scan_calls_of_cached {Emb : Type} (sim : Emb → Emb → ℚ)
    (provider : String → Emb) (newEmb : Emb) (floor : ℚ) (items : List Cand) :
    ∀ (cache : Cache Emb) (key : String), (List.lookup key cache).isSome →
      ((scanItems sim provider newEmb floor items cache).2.2).count key = 0 := by
  induction items with
  | nil => intro cache key _; rfl
  | cons item rest ih =>
    intro cache key h
    simp only [scanItems, getOrCompute]
    rcases hl : List.lookup item.page_id cache with _ | e
    · have hne : key ≠ item.page_id := by
        intro he
        rw [he, hl] at h
        cases h
      simp only [List.count_append, List.count_cons, List.count_nil]
      rw [ih _ _ (lookup_cons_isSome _ _ _ _ h)]
      simp [hne, Ne.symm hne]
    · simpa using ih _ _ h

/-- The candidate loop invokes the provider at most once per identifier. -/
theorem scan_calls_le_one {Emb : Type} (sim : Emb → Emb → ℚ)
    (provider : String → Emb) (newEmb : Emb) (floor : ℚ) (items : List Cand) :
    ∀ (cache : Cache Emb) (key : String),
      ((scanItems sim provider newEmb floor items cache).2.2).count key ≤ 1 := by
  induction items with
  | nil => intro cache key; exact Nat.zero_le 1
  | cons item rest ih =>
    intro cache key
    rcases hl : List.lookup item.page_id cache with _ | e
    · by_cases he : key = item.page_id
      · have h0 : ((scanItems sim provider newEmb floor rest
            ((item.page_id, get_embedding provider (itemText item)) :: cache)).2.2).count
              item.page_id = 0 :=
          scan_calls_of_cached sim provider newEmb floor rest _ item.page_id
            (by simp [List.lookup])
        simp [scanItems, getOrCompute, hl, List.count_append, List.count_cons, h0, he]
      · have h1 := ih ((item.page_id, get_embedding provider (itemText item)) :: cache) key
        simp [scanItems, getOrCompute, hl, List.count_append, List.count_cons, he,
          Ne.symm he, h1]
    · have h1 := ih cache key
      simpa [scanItems, getOrCompute, hl] using h1

/-- An identifier for which the provider was invoked ends up cached. -/
theorem scan_cached_of_called {Emb : Type} (sim : Emb → Emb → ℚ)
    (provider : String → Emb) (newEmb : Emb) (floor : ℚ) (items : List Cand) :
    ∀ (cache : Cache Emb) (key : String),
      1 ≤ ((scanItems sim provider newEmb floor items cache).2.2).count key →
      (List.lookup key (scanItems sim provider newEmb floor items cache).2.1).isSome := by
  induction items with
  | nil =>
    intro cache key h
    simp only [scanItems, List.count_nil] at h
    omega
  | cons item rest ih =>
    intro cache key h
    rcases hl : List.lookup item.page_id cache with _ | e
    · by_cases he : key = item.page_id
      · have hmono := scan_cache_mono sim provider newEmb floor rest
            ((item.page_id, get_embedding provider (itemText item)) :: cache) key
            (by simp [List.lookup, he])
        simpa [scanItems, getOrCompute, hl] using hmono
      · have h1 : 1 ≤ ((scanItems sim provider newEmb floor rest
            ((item.page_id, get_embedding provider (itemText item)) :: cache)).2.2).count key := by
          have hcount := h
          simp only [scanItems, getOrCompute, hl] at hcount
          simpa [List.count_append, List.count_cons, he, Ne.symm he] using hcount
        have h2 := ih ((item.page_id, get_embedding provider (itemText item)) :: cache) key h1
        simpa [scanItems, getOrCompute, hl] using h2
    · have h1 : 1 ≤ ((scanItems sim provider newEmb floor rest cache).2.2).count key := by
        simpa [scanItems, getOrCompute, hl] using h
      have h2 := ih cache key h1
      simpa [scanItems, getOrCompute, hl] using h2

/-- The final cache of a check_duplicates call (definitional unfolding). -/
theorem check_cache_eq {Emb : Type} (sim : Emb → Emb → ℚ) (provider : String → Emb)
    (d : ℚ) (cache : Cache Emb) (new_text : String) (items : List Cand)
    (threshold : Option ℚ) :
    (check_duplicates sim provider d cache new_text items threshold).cache
      = (scanItems sim provider (get_embedding provider new_text)
          (effectiveThreshold threshold d * (8 / 10)) items cache).2.1 := rfl

/-- The provider-invocation log of a check_duplicates call
(definitional unfolding). -/
theorem check_calls_eq {Emb : Type} (sim : Emb → Emb → ℚ) (provider : String → Emb)
    (d : ℚ) (cache : Cache Emb) (new_text : String) (items : List Cand)
    (threshold : Option ℚ) :
    (check_duplicates sim provider d cache new_text items threshold).calls
      = (scanItems sim provider (get_embedding provider new_text)
          (effectiveThreshold threshold d * (8 / 10)) items cache).2.2 := rfl

/-- C1: for every call to check_duplicates, the recommendation is
determined from the best match's score by the banded policy in priority
order: no match gives create_new; score at or above 0.95 gives skip
(boundary inclusive); otherwise score at or above the effective threshold
gives append_to; otherwise score at or above threshold * 0.8 gives review;
otherwise create_new. -/
theorem spec_c1_recommendation_policy {Emb : Type} (sim : Emb → Emb → ℚ)
    (provider : String → Emb) (d : ℚ) (cache : Cache Emb) (new_text : String)
    (items : List Cand) (threshold : Option ℚ) (out : CheckOutput Emb)
    (hout : out = check_duplicates sim provider d cache new_text items threshold) :
    (out.result.best_match = none → out.result.recommendation = "create_new") ∧
      ∀ m, out.result.best_match = some m →
        ((95 : ℚ) / 100 ≤ m.similarity_score → out.result.recommendation = "skip") ∧
        (m.similarity_score < (95 : ℚ) / 100 →
          effectiveThreshold threshold d ≤ m.similarity_score →
          out.result.recommendation = "append_to") ∧
        (m.similarity_score < (95 : ℚ) / 100 →
          m.similarity_score < effectiveThreshold threshold d →
          effectiveThreshold threshold d * (8 / 10) ≤ m.similarity_score →
          out.result.recommendation = "review") ∧
        (m.similarity_score < (95 : ℚ) / 100 →
          m.similarity_score < effectiveThreshold threshold d →
          m.similarity_score < effectiveThreshold threshold d * (8 / 10) →
          out.result.recommendation = "create_new") := by
  subst hout
  rw [rec_of_best]
  constructor
  · intro h
    rw [h]
  · intro m hm
    rw [hm]
    dsimp only
    refine ⟨fun h1 => by rw [if_pos h1], fun h1 h2 => ?_, fun h1 h2 h3 => ?_,
      fun h1 h2 h3 => ?_⟩
    · rw [if_neg (not_le.mpr h1), if_pos h2]
    · rw [if_neg (not_le.mpr h1), if_neg (not_le.mpr h2), if_pos h3]
    · rw [if_neg (not_le.mpr h1), if_neg (not_le.mpr h2), if_neg (not_le.mpr h3)]

/-- Witness for C1 at a concrete input: a single candidate scoring 0.96
under the default threshold yields the skip recommendation. -/
theorem spec_c1_recommendation_policy_witness :
    (check_duplicates (fun _ _ => 96 / 100) (fun _ => (0 : ℚ)) (85 / 100) []
        "t" [{ page_id := "p1", title := some "T", text := none, database := none }]
        none).result.recommendation = "skip" :=
  ((spec_c1_recommendation_policy _ _ _ _ _ _ _ _ rfl).2
      { page_id := "p1", title := "T", similarity_score := 96 / 100,
        database := "unknown" }
      (by norm_num [check_duplicates, scanItems, getOrCompute, get_embedding,
        itemText, mkMatch, effectiveThreshold, List.insertionSort,
        List.orderedInsert])).1 (by norm_num)

/-- C2: the returned matches are sorted descending by similarity score,
contain at most 5 entries, the best match is the head of the returned
matches (absent when they are empty), and the returned matches are the
top-5 truncation of the full sorted list of all candidates at or above the
inclusion floor. -/
theorem spec_c2_matches_invariants {Emb : Type} (sim : Emb → Emb → ℚ)
    (provider : String → Emb) (d : ℚ) (cache : Cache Emb) (new_text : String)
    (items : List Cand) (threshold : Option ℚ) :
    List.Sorted simGE
        (check_duplicates sim provider d cache new_text items threshold).result.«matches» ∧
      (check_duplicates sim provider d cache new_text items
          threshold).result.«matches».length ≤ 5 ∧
      (check_duplicates sim provider d cache new_text items threshold).result.best_match
        = (check_duplicates sim provider d cache new_text items
            threshold).result.«matches».head? ∧
      (check_duplicates sim provider d cache new_text items threshold).result.«matches»
        = (List.insertionSort simGE
            (scanItems sim provider (get_embedding provider new_text)
              (effectiveThreshold threshold d * (8 / 10)) items cache).1).take 5 := by
  refine ⟨?_, ?_, ?_, rfl⟩
  · exact List.Pairwise.sublist (List.take_sublist _ _)
      (List.sorted_insertionSort simGE _)
  · exact List.length_take_le _ _
  · exact (head?_take_five _).symm

/-- C3: a candidate is kept by the loop if and only if its score is at or
above threshold * 0.8, and every returned match's score is at or above
that floor (so a candidate scoring strictly below it never appears). -/
theorem spec_c3_inclusion_filter {Emb : Type} (sim : Emb → Emb → ℚ)
    (provider : String → Emb) (d : ℚ) (cache : Cache Emb) (new_text : String)
    (items : List Cand) (threshold : Option ℚ) (out : CheckOutput Emb)
    (hout : out = check_duplicates sim provider d cache new_text items threshold) :
    (∀ p ∈ itemScores sim provider (get_embedding provider new_text) items cache,
        (effectiveThreshold threshold d * (8 / 10) ≤ p.2 ↔
          mkMatch p.1 p.2 ∈ (scanItems sim provider (get_embedding provider new_text)
            (effectiveThreshold threshold d * (8 / 10)) items cache).1)) ∧
      ∀ m ∈ out.result.«matches»,
        effectiveThreshold threshold d * (8 / 10) ≤ m.similarity_score := by
  constructor
  · intro p hp
    constructor
    · intro h
      rw [scan_eq_filterMap]
      exact List.mem_filterMap.mpr ⟨p, hp, by rw [if_pos h]⟩
    · intro h
      exact mem_scan_floor _ _ _ _ _ _ _ h
  · intro m hm
    subst hout
    have hm' : m ∈ (List.insertionSort simGE
        (scanItems sim provider (get_embedding provider new_text)
          (effectiveThreshold threshold d * (8 / 10)) items cache).1).take 5 := hm
    have hm2 := List.mem_of_mem_take hm'
    have hm3 := (List.perm_insertionSort simGE _).mem_iff.mp hm2
    exact mem_scan_floor _ _ _ _ _ _ _ hm3

/-- Witness for C3 at a concrete input: a candidate scoring 0.96 under the
default threshold (floor 0.68) is kept by the loop. -/
theorem spec_c3_inclusion_filter_witness :
    mkMatch { page_id := "p1", title := some "T", text := none, database := none }
        (96 / 100)
      ∈ (scanItems (fun _ _ => 96 / 100) (fun _ => (0 : ℚ))
          (get_embedding (fun _ => 0) "t")
          (effectiveThreshold none (85 / 100) * (8 / 10))
          [{ page_id := "p1", title := some "T", text := none, database := none }]
          []).1 :=
  ((spec_c3_inclusion_filter (fun _ _ => 96 / 100) (fun _ => (0 : ℚ)) (85 / 100)
      [] "t" [{ page_id := "p1", title := some "T", text := none, database := none }]
      none _ rfl).1
    ({ page_id := "p1", title := some "T", text := none, database := none }, 96 / 100)
    (by simp [itemScores, getOrCompute, get_embedding, itemText])).mp
    (by norm_num [effectiveThreshold])

/-- C5 failing input (code bug): with an empty candidate list, Python's
"best_match and best_match.similarity_score >= threshold" short-circuits
to None, so is_duplicate is None rather than the boolean False asserted by
the claim, the spec and the repository's own test
(tests/test_dedupe.py, assert result.is_duplicate is False); the
recommendation is create_new as claimed. -/
theorem spec_c5_is_duplicate_not_bool :
    (check_duplicates (fun _ _ => 0) (fun _ => (0 : ℚ)) dedupe_threshold_default
        [] "New unique content" [] none).result.is_duplicate = none ∧
      (check_duplicates (fun _ _ => 0) (fun _ => (0 : ℚ)) dedupe_threshold_default
          [] "New unique content" [] none).result.recommendation = "create_new" ∧
      (none : Option Bool) ≠ some false := by
  exact ⟨rfl, rfl, by simp⟩

/-- C6 counterexample: a caller-supplied threshold of 0.0 is falsy in
Python, so line 88 falls back to the configured default 0.85 instead of
using 0.0; observably, a candidate scoring 0.5 is excluded and the
recommendation is create_new, while an effective threshold of 0.0 would
have included it with recommendation append_to. -/
theorem spec_c6_zero_threshold_counterexample :
    effectiveThreshold (some 0) dedupe_threshold_default = dedupe_threshold_default ∧
      dedupe_threshold_default ≠ 0 ∧
      (check_duplicates (fun _ _ => 1 / 2) (fun _ => (0 : ℚ))
          dedupe_threshold_default [] "x"
          [{ page_id := "p1", title := some "T", text := some "T",
             database := some "inbox" }]
          (some 0)).result.«matches» = [] ∧
      (check_duplicates (fun _ _ => 1 / 2) (fun _ => (0 : ℚ))
          dedupe_threshold_default [] "x"
          [{ page_id := "p1", title := some "T", text := some "T",
             database := some "inbox" }]
          (some 0)).result.recommendation = "create_new" := by
  refine ⟨rfl, by norm_num [dedupe_threshold_default], ?_, ?_⟩ <;>
    norm_num [check_duplicates, scanItems, getOrCompute, get_embedding, itemText,
      mkMatch, effectiveThreshold, dedupe_threshold_default, List.insertionSort,
      List.orderedInsert]

/-- C6 amended: the effective threshold is the caller-supplied value
whenever that value is truthy (non-zero); a caller-supplied 0.0 and an
absent argument both resolve to the configured default (0.85 by default).
In particular, for a non-zero caller-supplied threshold the configured
default is irrelevant to check_duplicates. -/
theorem spec_c6_threshold_resolution :
    (∀ d : ℚ, effectiveThreshold none d = d) ∧
      (∀ t d : ℚ, t ≠ 0 → effectiveThreshold (some t) d = t) ∧
      (∀ d : ℚ, effectiveThreshold (some 0) d = d) ∧
      dedupe_threshold_default = 85 / 100 ∧
      ∀ (Emb : Type) (sim : Emb → Emb → ℚ) (provider : String → Emb) (d₁ d₂ : ℚ)
        (cache : Cache Emb) (text : String) (items : List Cand) (t : ℚ), t ≠ 0 →
        check_duplicates sim provider d₁ cache text items (some t)
          = check_duplicates sim provider d₂ cache text items (some t) := by
  refine ⟨fun d => rfl, fun t d ht => by simp [effectiveThreshold, ht], fun d => rfl,
    rfl, fun Emb sim provider d₁ d₂ cache text items t ht => ?_⟩
  simp [check_duplicates, effectiveThreshold, ht]

/-- Witness for C6 amended at concrete inputs: threshold 0.5 is used as
supplied, and the configured default does not affect the call. -/
theorem spec_c6_threshold_resolution_witness :
    effectiveThreshold (some (1 / 2)) dedupe_threshold_default = 1 / 2 ∧
      check_duplicates (fun _ _ => 0) (fun _ => (0 : ℚ)) (85 / 100) [] "x" []
          (some (1 / 2))
        = check_duplicates (fun _ _ => 0) (fun _ => (0 : ℚ)) 0 [] "x" []
            (some (1 / 2)) :=
  ⟨spec_c6_threshold_resolution.2.1 (1 / 2) dedupe_threshold_default (by norm_num),
    spec_c6_threshold_resolution.2.2.2.2 ℚ _ _ _ _ _ _ _ (1 / 2) (by norm_num)⟩

/-- C7: cache idempotence within one Deduplicator instance.  Obtaining the
embedding for the same identifier twice via getOrCompute returns the
stored vector the second time with no provider invocation; across two
successive check_duplicates calls the provider is invoked at most once for
any given identifier; after clear_cache the next lookup invokes the
provider again. -/
theorem spec_c7_cache_idempotence :
    (∀ (Emb : Type) (provider : String → Emb) (cache : Cache Emb) (key t1 t2 : String),
        getOrCompute provider (getOrCompute provider cache key t1).2.1 key t2
          = ((getOrCompute provider cache key t1).1,
             (getOrCompute provider cache key t1).2.1, [])) ∧
      (∀ (Emb : Type) (sim : Emb → Emb → ℚ) (provider : String → Emb) (d : ℚ)
        (cache : Cache Emb) (text1 : String) (items1 : List Cand) (th1 : Option ℚ)
        (text2 : String) (items2 : List Cand) (th2 : Option ℚ) (key : String),
        ((check_duplicates sim provider d cache text1 items1 th1).calls ++
            (check_duplicates sim provider d
              (check_duplicates sim provider d cache text1 items1 th1).cache
              text2 items2 th2).calls).count key ≤ 1) ∧
      ∀ (Emb : Type) (provider : String → Emb) (cache : Cache Emb) (key t : String),
        getOrCompute provider (clear_cache cache) key t
          = (get_embedding provider t, [(key, get_embedding provider t)], [key]) := by
  refine ⟨fun Emb provider cache key t1 t2 => ?_,
    fun Emb sim provider d cache text1 items1 th1 text2 items2 th2 key => ?_,
    fun Emb provider cache key t => ?_⟩
  · rcases h : List.lookup key cache with _ | e
    · simp [getOrCompute, h, List.lookup]
    · simp [getOrCompute, h]
  · rw [check_calls_eq, check_calls_eq, check_cache_eq, List.count_append]
    rcases Nat.eq_zero_or_pos (((scanItems sim provider (get_embedding provider text1)
        (effectiveThreshold th1 d * (8 / 10)) items1 cache).2.2).count key) with h0 | h1
    · rw [h0]
      simpa using scan_calls_le_one sim provider (get_embedding provider text2)
        (effectiveThreshold th2 d * (8 / 10)) items2 _ key
    · have hcached := scan_cached_of_called sim provider (get_embedding provider text1)
        (effectiveThreshold th1 d * (8 / 10)) items1 cache key h1
      have hzero := scan_calls_of_cached sim provider (get_embedding provider text2)
        (effectiveThreshold th2 d * (8 / 10)) items2 _ key hcached
      have hle := scan_calls_le_one sim provider (get_embedding provider text1)
        (effectiveThreshold th1 d * (8 / 10)) items1 cache key
      omega
  · simp [getOrCompute, clear_cache, List.lookup]

/-- Unfolding of the dot product on cons cells. -/
theorem dotList_cons (x y : ℝ) (r s : List ℝ) :
    dotList (x :: r) (y :: s) = x * y + dotList r s := by
  simp [dotList]

/-- Unfolding of the squared sum on cons cells. -/
theorem sumSq_cons (x : ℝ) (r : List ℝ) : sumSq (x :: r) = x * x + sumSq r := by
  simp [sumSq]

/-- The sum of squares of a vector is nonnegative. -/
theorem sumSq_nonneg (a : List ℝ) : 0 ≤ sumSq a := by
  refine List.sum_nonneg ?_
  intro x hx
  rcases List.mem_map.mp hx with ⟨y, _, rfl⟩
  exact mul_self_nonneg y

/-- The magnitude of a vector is nonnegative. -/
theorem magnitude_nonneg (a : List ℝ) : 0 ≤ magnitude a := Real.sqrt_nonneg _

/-- Zero magnitude is equivalent to a zero sum of squares. -/
theorem magnitude_eq_zero_iff (a : List ℝ) : magnitude a = 0 ↔ sumSq a = 0 := by
  unfold magnitude
  exact Real.sqrt_eq_zero (sumSq_nonneg a)

/-- A vector with zero sum of squares is entrywise zero. -/
theorem sumSq_eq_zero_elems (a : List ℝ) (h : sumSq a = 0) : ∀ x ∈ a, x = 0 := by
  induction a with
  | nil => intro x hx; cases hx
  | cons y r ih =>
    have hy : 0 ≤ y * y := mul_self_nonneg y
    have hr : 0 ≤ sumSq r := sumSq_nonneg r
    have hsum : y * y + sumSq r = 0 := by rw [← sumSq_cons]; exact h
    intro x hx
    rcases List.mem_cons.mp hx with rfl | hx'
    · exact mul_self_eq_zero.mp (by linarith)
    · exact ih (by linarith) x hx'

/-- The dot product with an entrywise-zero left factor vanishes. -/
theorem dotList_eq_zero_left (a : List ℝ) (h : ∀ x ∈ a, x = 0) (b : List ℝ) :
    dotList a b = 0 := by
  induction a generalizing b with
  | nil => cases b <;> rfl
  | cons x r ih =>
    cases b with
    | nil => rfl
    | cons y s =>
      have hx : x = 0 := h x (List.mem_cons_self x r)
      have hrest := ih (fun z hz => h z (List.mem_cons_of_mem _ hz)) s
      rw [dotList_cons, hx, hrest, zero_mul, add_zero]

/-- The dot product is symmetric. -/
theorem dotList_comm (a b : List ℝ) : dotList a b = dotList b a := by
  unfold dotList
  rw [List.zipWith_comm_of_comm (fun x y => x * y) (fun x y => mul_comm x y)]

/-- Cauchy-Schwarz for list dot products, squared form. -/
theorem dotList_sq_le (a : List ℝ) : ∀ b : List ℝ,
    (dotList a b) ^ 2 ≤ sumSq a * sumSq b := by
  induction a with
  | nil =>
    intro b
    have h0 : dotList [] b = 0 := by cases b <;> rfl
    rw [h0]
    have := mul_nonneg (sumSq_nonneg ([] : List ℝ)) (sumSq_nonneg b)
    simpa using this
  | cons x r ih =>
    intro b
    cases b with
    | nil =>
      have h0 : dotList (x :: r) [] = 0 := rfl
      rw [h0]
      have := mul_nonneg (sumSq_nonneg (x :: r)) (sumSq_nonneg ([] : List ℝ))
      simpa using this
    | cons y s =>
      have IH := ih s
      have hA : 0 ≤ sumSq r := sumSq_nonneg r
      have hB : 0 ≤ sumSq s := sumSq_nonneg s
      rw [dotList_cons, sumSq_cons, sumSq_cons]
      rcases eq_or_lt_of_le hA with hA0 | hApos
      · have hd0 : dotList r s = 0 := by
          have h2 := IH
          rw [← hA0, zero_mul] at h2
          exact sq_eq_zero_iff.mp (le_antisymm h2 (sq_nonneg _))
        rw [← hA0, hd0]
        nlinarith [mul_self_nonneg x, mul_self_nonneg y, hB,
          mul_nonneg (mul_self_nonneg x) hB]
      · have key : 0 ≤ (x * dotList r s - y * sumSq r) ^ 2 := sq_nonneg _
        have key2 : 0 ≤ (x * x + sumSq r) * (sumSq r * sumSq s - dotList r s ^ 2) :=
          mul_nonneg (by nlinarith [mul_self_nonneg x]) (by linarith)
        nlinarith [key, key2, hApos]

/-- Cauchy-Schwarz for list dot products: the absolute dot product is
bounded by the product of magnitudes. -/
theorem abs_dotList_le (a b : List ℝ) :
    |dotList a b| ≤ magnitude a * magnitude b := by
  have h := dotList_sq_le a b
  have h1 : |dotList a b| = Real.sqrt ((dotList a b) ^ 2) :=
    (Real.sqrt_sq_eq_abs _).symm
  rw [h1, magnitude, magnitude, ← Real.sqrt_mul (sumSq_nonneg a)]
  exact Real.sqrt_le_sqrt h

/-- C8: compute_similarity returns 0.0 when either vector has zero
magnitude rather than failing with a division by zero (sklearn replaces
zero norms by 1 and the corresponding dot product vanishes); for vectors
of equal dimension and nonzero magnitudes it returns the dot product
divided by the product of magnitudes, a value in the interval from -1
to 1. -/
theorem spec_c8_cosine_similarity_safety (a b : List ℝ) :
    ((magnitude a = 0 ∨ magnitude b = 0) → compute_similarity a b = 0) ∧
      (a.length = b.length → magnitude a ≠ 0 → magnitude b ≠ 0 →
        compute_similarity a b = dotList a b / (magnitude a * magnitude b) ∧
          -1 ≤ compute_similarity a b ∧ compute_similarity a b ≤ 1) := by
  constructor
  · rintro (h | h)
    · have hz : ∀ x ∈ a, x = 0 :=
        sumSq_eq_zero_elems a ((magnitude_eq_zero_iff a).mp h)
      unfold compute_similarity
      rw [dotList_eq_zero_left a hz b, zero_div]
    · have hz : ∀ x ∈ b, x = 0 :=
        sumSq_eq_zero_elems b ((magnitude_eq_zero_iff b).mp h)
      unfold compute_similarity
      rw [dotList_comm, dotList_eq_zero_left b hz a, zero_div]
  · intro _ ha hb
    have hsim : compute_similarity a b
        = dotList a b / (magnitude a * magnitude b) := by
      unfold compute_similarity normOr1
      rw [if_neg ha, if_neg hb]
    have hpa : 0 < magnitude a := lt_of_le_of_ne (magnitude_nonneg a) (Ne.symm ha)
    have hpb : 0 < magnitude b := lt_of_le_of_ne (magnitude_nonneg b) (Ne.symm hb)
    have hpos : 0 < magnitude a * magnitude b := mul_pos hpa hpb
    have habs := abs_dotList_le a b
    refine ⟨hsim, ?_, ?_⟩
    · rw [hsim, le_div_iff₀ hpos]
      have hlow := (abs_le.mp habs).1
      linarith
    · rw [hsim, div_le_one hpos]
      exact (abs_le.mp habs).2

/-- Witness for C8 at concrete inputs: the zero vector gives similarity 0,
and two equal unit vectors give a similarity inside the valid range. -/
theorem spec_c8_cosine_similarity_safety_witness :
    magnitude [(0 : ℝ)] = 0 ∧ compute_similarity [(0 : ℝ)] [(1 : ℝ)] = 0 ∧
      magnitude [(1 : ℝ)] ≠ 0 ∧
      -1 ≤ compute_similarity [(1 : ℝ)] [(1 : ℝ)] ∧
      compute_similarity [(1 : ℝ)] [(1 : ℝ)] ≤ 1 := by
  have hm0 : magnitude [(0 : ℝ)] = 0 := by
    simp [magnitude, sumSq]
  have hm1 : magnitude [(1 : ℝ)] ≠ 0 := by
    simp [magnitude, sumSq]
  refine ⟨hm0, (spec_c8_cosine_similarity_safety [(0 : ℝ)] [(1 : ℝ)]).1 (Or.inl hm0),
    hm1, ?_, ?_⟩
  · exact ((spec_c8_cosine_similarity_safety [(1 : ℝ)] [(1 : ℝ)]).2 rfl hm1 hm1).2.1
  · exact ((spec_c8_cosine_similarity_safety [(1 : ℝ)] [(1 : ℝ)]).2 rfl hm1 hm1).2.2

/-- When every formatter succeeds, the template loop logs no warnings. -/
theorem templateLoop_warnings_nil {R O : Type} (C : Collabs R O) (refined : R)
    (outs : List (String × O)) (hok : format_all C refined = .ok outs) :
    ∀ platforms, (templateLoop C refined platforms).2 = [] := by
  intro platforms
  induction platforms with
  | nil => rfl
  | cons q rest ih =>
    simp only [templateLoop, hok]
    rcases hl : List.lookup q outs with _ | o <;> simpa [hl] using ih

/-- A platform absent from the format_all dictionary never contributes an
output. -/
theorem templateLoop_unknown_not_mem {R O : Type} (C : Collabs R O) (refined : R)
    (outs : List (String × O)) (hok : format_all C refined = .ok outs)
    (p : String) (hp : List.lookup p outs = none) :
    ∀ platforms o, (p, o) ∉ (templateLoop C refined platforms).1 := by
  intro platforms
  induction platforms with
  | nil => intro o h; cases h
  | cons q rest ih =>
    intro o h
    simp only [templateLoop, hok] at h
    rcases hl : List.lookup q outs with _ | o' <;> rw [hl] at h
    · exact ih o h
    · rcases List.mem_cons.mp h with he | ht
      · have hq : q = p := (Prod.mk.injEq ..).mp he.symm |>.1
        rw [hq, hp] at hl
        cases hl
      · exact ih o ht

/-- A requested platform present in the format_all dictionary always
contributes its output, regardless of failures of other platforms. -/
theorem templateLoop_known_mem {R O : Type} (C : Collabs R O) (refined : R)
    (outs : List (String × O)) (hok : format_all C refined = .ok outs) :
    ∀ platforms, ∀ p ∈ platforms, ∀ o, List.lookup p outs = some o →
      (p, o) ∈ (templateLoop C refined platforms).1 := by
  intro platforms
  induction platforms with
  | nil => intro p hp; cases hp
  | cons q rest ih =>
    intro p hp o ho
    simp only [templateLoop, hok]
    rcases List.mem_cons.mp hp with rfl | hp'
    · rw [ho]
      exact List.mem_cons_self _ _
    · rcases hl : List.lookup q outs with _ | o'
      · exact ih p hp' o ho
      · exact List.mem_cons_of_mem _ (ih p hp' o ho)

/-- C9 counterexample: requesting the unknown platform "bogus" alongside
"linkedin" with all formatters succeeding produces no warning log entry at
all; the unknown platform is skipped silently (dict.get returns None and
the "if output:" guard drops it without raising), while the claim says the
failure is reported (logged). The loop does continue and linkedin is still
produced. -/
theorem spec_c9_unknown_platform_counterexample :
    (process_text collabsOk "note" none true (some ["bogus", "linkedin"])).2 = [] ∧
      (process_text collabsOk "note" none true
          (some ["bogus", "linkedin"])).1.platform_outputs = [("linkedin", ())] ∧
      (process_text collabsOk "note" none true
          (some ["bogus", "linkedin"])).1.success = true ∧
      (process_text collabsOk "note" none true
          (some ["bogus", "linkedin"])).1.stage_reached = "template" := by
  exact ⟨rfl, rfl, rfl, rfl⟩

/-- C9 amended: a per-platform failure is non-fatal and the loop continues
over the remaining requested platforms, whose outputs are still produced,
and the orchestrator still succeeds; however an unknown platform name is
skipped silently (no output and no warning logged), because dict.get
returns None without raising, so nothing is reported for it. -/
theorem spec_c9_unknown_platform_skipped :
    (∀ (R O : Type) (C : Collabs R O) (refined : R) (outs : List (String × O))
        (platforms : List String), format_all C refined = .ok outs →
        (templateLoop C refined platforms).2 = [] ∧
          (∀ p, List.lookup p outs = none →
            ∀ o, (p, o) ∉ (templateLoop C refined platforms).1) ∧
          (∀ p ∈ platforms, ∀ o, List.lookup p outs = some o →
            (p, o) ∈ (templateLoop C refined platforms).1)) ∧
      ∀ (R O : Type) (C : Collabs R O) (text : String)
        (cls : ClassificationResult) (ps : Option (List String))
        (result : PipelineResult R O) (refined : R),
        C.refine text { title := cls.title, category := cls.category, tags := cls.tags }
            = .ok refined →
        (refineAndTemplate C text cls true ps result).1.success = true := by
  constructor
  · intro R O C refined outs platforms hok
    exact ⟨templateLoop_warnings_nil C refined outs hok platforms,
      fun p hp => templateLoop_unknown_not_mem C refined outs hok p hp platforms,
      templateLoop_known_mem C refined outs hok platforms⟩
  · intro R O C text cls ps result refined href
    rcases ps with _ | ps
    · simp [refineAndTemplate, href]
    · rcases ps with _ | ⟨p, ps⟩ <;> simp [refineAndTemplate, href]

/-- Witness for C9 amended at a concrete input: with all formatters
succeeding, the loop over an unknown and a known platform logs nothing,
skips the unknown platform and still produces the known one. -/
theorem spec_c9_unknown_platform_skipped_witness :
    (templateLoop collabsOk () ["bogus", "linkedin"]).2 = [] ∧
      (∀ o, ("bogus", o) ∉ (templateLoop collabsOk () ["bogus", "linkedin"]).1) ∧
      ("linkedin", ()) ∈ (templateLoop collabsOk () ["bogus", "linkedin"]).1 := by
  have h := spec_c9_unknown_platform_skipped.1 Unit Unit collabsOk ()
    [("twitter_thread", ()), ("linkedin", ()), ("substack", ()),
      ("video_script", ())] ["bogus", "linkedin"] rfl
  exact ⟨h.1, h.2.1 "bogus" rfl, h.2.2 "linkedin" (by simp) () rfl⟩

/-- C4: when a required stage fails, the orchestrator catches the
exception, records its message in error, leaves stage_reached at the last
completed stage (not the failing one), sets success to false and still
returns a result: transcription failure leaves init; classification
failure leaves init; either candidate query or the dedupe call failing
leaves classify; the store action failing (including the create call after
a create_new recommendation) leaves dedupe; the refine call failing leaves
notion. -/
theorem spec_c4_stage_failure_contract :
    (∀ (R O : Type) (C : Collabs R O) (path : String) (ar : Bool)
        (ps : Option (List String)) (e : String), C.transcribe path = .error e →
        (process_audio C path ar ps).1.success = false ∧
          (process_audio C path ar ps).1.stage_reached = "init" ∧
          (process_audio C path ar ps).1.error = some e) ∧
      (∀ (R O : Type) (C : Collabs R O) (text : String) (ctx : Option String)
          (ar : Bool) (ps : Option (List String)) (e : String),
          C.classify text ctx = .error e →
          (process_text C text ctx ar ps).1.success = false ∧
            (process_text C text ctx ar ps).1.stage_reached = "init" ∧
            (process_text C text ctx ar ps).1.error = some e) ∧
      (∀ (R O : Type) (C : Collabs R O) (text : String) (ctx : Option String)
          (ar : Bool) (ps : Option (List String)) (cls : ClassificationResult)
          (e : String), C.classify text ctx = .ok cls →
          C.query_inbox 50 = .error e →
          (process_text C text ctx ar ps).1.success = false ∧
            (process_text C text ctx ar ps).1.stage_reached = "classify" ∧
            (process_text C text ctx ar ps).1.error = some e) ∧
      (∀ (R O : Type) (C : Collabs R O) (text : String) (ctx : Option String)
          (ar : Bool) (ps : Option (List String)) (cls : ClassificationResult)
          (xs : List InboxRow) (e : String), C.classify text ctx = .ok cls →
          C.query_inbox 50 = .ok xs → C.query_content_objects 50 = .error e →
          (process_text C text ctx ar ps).1.success = false ∧
            (process_text C text ctx ar ps).1.stage_reached = "classify" ∧
            (process_text C text ctx ar ps).1.error = some e) ∧
      (∀ (R O : Type) (C : Collabs R O) (text : String) (ctx : Option String)
          (ar : Bool) (ps : Option (List String)) (cls : ClassificationResult)
          (xs : List InboxRow) (ys : List ContentRow) (e : String),
          C.classify text ctx = .ok cls → C.query_inbox 50 = .ok xs →
          C.query_content_objects 50 = .ok ys →
          C.check_duplicates text (existingOf xs ys) = .error e →
          (process_text C text ctx ar ps).1.success = false ∧
            (process_text C text ctx ar ps).1.stage_reached = "classify" ∧
            (process_text C text ctx ar ps).1.error = some e) ∧
      (∀ (R O : Type) (C : Collabs R O) (text : String) (ctx : Option String)
          (ar : Bool) (ps : Option (List String)) (cls : ClassificationResult)
          (xs : List InboxRow) (ys : List ContentRow) (dres : DedupeResult)
          (e : String), C.classify text ctx = .ok cls → C.query_inbox 50 = .ok xs →
          C.query_content_objects 50 = .ok ys →
          C.check_duplicates text (existingOf xs ys) = .ok dres →
          notionAction C text dres cls = .error e →
          (process_text C text ctx ar ps).1.success = false ∧
            (process_text C text ctx ar ps).1.stage_reached = "dedupe" ∧
            (process_text C text ctx ar ps).1.error = some e) ∧
      ∀ (R O : Type) (C : Collabs R O) (text : String) (ctx : Option String)
        (ps : Option (List String)) (cls : ClassificationResult)
        (xs : List InboxRow) (ys : List ContentRow) (dres : DedupeResult)
        (pid e : String), C.classify text ctx = .ok cls → C.query_inbox 50 = .ok xs →
        C.query_content_objects 50 = .ok ys →
        C.check_duplicates text (existingOf xs ys) = .ok dres →
        notionAction C text dres cls = .ok pid →
        C.refine text { title := cls.title, category := cls.category, tags := cls.tags }
          = .error e →
        (process_text C text ctx true ps).1.success = false ∧
          (process_text C text ctx true ps).1.stage_reached = "notion" ∧
          (process_text C text ctx true ps).1.error = some e := by
  refine ⟨?_, ?_, ?_, ?_, ?_, ?_, ?_⟩
  · intro R O C path ar ps e h
    simp [process_audio, h]
  · intro R O C text ctx ar ps e h
    simp [process_text, processTextInternal, h]
  · intro R O C text ctx ar ps cls e h1 h2
    simp [process_text, processTextInternal, h1, h2]
  · intro R O C text ctx ar ps cls xs e h1 h2 h3
    simp [process_text, processTextInternal, h1, h2, h3]
  · intro R O C text ctx ar ps cls xs ys e h1 h2 h3 h4
    simp [process_text, processTextInternal, h1, h2, h3, h4]
  · intro R O C text ctx ar ps cls xs ys dres e h1 h2 h3 h4 h5
    simp [process_text, processTextInternal, h1, h2, h3, h4, h5]
  · intro R O C text ctx ps cls xs ys dres pid e h1 h2 h3 h4 h5 h6
    simp [process_text, processTextInternal, refineAndTemplate,
      h1, h2, h3, h4, h5, h6]

/-- Witness for C4 at a concrete input: the record-store create call fails
after a create_new recommendation, so the result reports failure with
stage_reached frozen at dedupe and the error message recorded. -/
theorem spec_c4_stage_failure_contract_witness :
    (process_text collabsCreateFails "note" none false none).1.success = false ∧
      (process_text collabsCreateFails "note" none false
          none).1.stage_reached = "dedupe" ∧
      (process_text collabsCreateFails "note" none false none).1.error
        = some "boom" :=
  spec_c4_stage_failure_contract.2.2.2.2.2.1 Unit Unit collabsCreateFails "note"
    none false none exampleClassification [] []
    { is_duplicate := none, «matches» := [], best_match := none,
      recommendation := "create_new" } "boom" rfl rfl rfl rfl rfl

/-- With auto_refine disabled the internal pipeline never touches the
platform outputs and stops at notion at the latest. -/
theorem internal_no_refine {R O : Type} (C : Collabs R O) (text : String)
    (ctx : Option String) (ps : Option (List String)) (r : PipelineResult R O) :
    (processTextInternal C text ctx false ps r).1.platform_outputs
        = r.platform_outputs ∧
      ((processTextInternal C text ctx false ps r).1.stage_reached = r.stage_reached ∨
        (processTextInternal C text ctx false ps r).1.stage_reached ∈
          ["classify", "dedupe", "notion"]) := by
  rcases h1 : C.classify text ctx with e | cls
  · simp [processTextInternal, h1]
  · rcases h2 : C.query_inbox 50 with e | xs
    · simp [processTextInternal, h1, h2]
    · rcases h3 : C.query_content_objects 50 with e | ys
      · simp [processTextInternal, h1, h2, h3]
      · rcases h4 : C.check_duplicates text (existingOf xs ys) with e | dres
        · simp [processTextInternal, h1, h2, h3, h4]
        · rcases h5 : notionAction C text dres cls with e | pid
          · simp [processTextInternal, h1, h2, h3, h4, h5]
          · simp [processTextInternal, refineAndTemplate, h1, h2, h3, h4, h5]

/-- A stage name among the non-optional stages is neither refine nor
template. -/
theorem stage_ne_refine_template (s : String)
    (hs : s = "init" ∨ s = "transcribe" ∨ s ∈ ["classify", "dedupe", "notion"]) :
    s ≠ "refine" ∧ s ≠ "template" := by
  rcases hs with h | h | h
  · subst h; exact ⟨by decide, by decide⟩
  · subst h; exact ⟨by decide, by decide⟩
  · simp only [List.mem_cons, List.not_mem_nil, or_false] at h
    rcases h with h | h | h <;> subst h <;> exact ⟨by decide, by decide⟩

/-- C10: the template stage runs only when refine was requested: with
auto_refine false, even a non-empty platforms list leaves platform_outputs
empty and stage_reached never becomes refine or template, for both
process_text and process_audio. -/
theorem spec_c10_template_requires_refine :
    ∀ (R O : Type) (C : Collabs R O) (text path : String) (ctx : Option String)
      (ps : Option (List String)),
      (process_text C text ctx false ps).1.platform_outputs = [] ∧
        (process_text C text ctx false ps).1.stage_reached ≠ "refine" ∧
        (process_text C text ctx false ps).1.stage_reached ≠ "template" ∧
        (process_audio C path false ps).1.platform_outputs = [] ∧
        (process_audio C path false ps).1.stage_reached ≠ "refine" ∧
        (process_audio C path false ps).1.stage_reached ≠ "template" := by
  intro R O C text path ctx ps
  have ht := internal_no_refine C text ctx ps
    { success := false, stage_reached := "init", input_type := "text",
      transcript := some text }
  have htext := stage_ne_refine_template
    (process_text C text ctx false ps).1.stage_reached
    (by rcases ht.2 with h | h
        · exact Or.inl h
        · exact Or.inr (Or.inr h))
  refine ⟨ht.1, htext.1, htext.2, ?_⟩
  rcases htr : C.transcribe path with e | tr
  · have ha : (process_audio C path false ps)
        = ({ success := false, stage_reached := "init", input_type := "audio",
             error := some e }, []) := by
      simp [process_audio, htr]
    rw [ha]
    have hinit := stage_ne_refine_template "init" (Or.inl rfl)
    exact ⟨rfl, hinit.1, hinit.2⟩
  · have ha : (process_audio C path false ps)
        = processTextInternal C tr.text (some ("voice memo: " ++ pathName path))
            false ps
            { success := false, stage_reached := "transcribe",
              input_type := "audio", transcript := some tr.text } := by
      unfold process_audio
      rw [htr]
    have ht2 := internal_no_refine C tr.text
      (some ("voice memo: " ++ pathName path)) ps
      { success := false, stage_reached := "transcribe", input_type := "audio",
        transcript := some tr.text }
    have haudio := stage_ne_refine_template
      (processTextInternal C tr.text (some ("voice memo: " ++ pathName path))
          false ps
          { success := false, stage_reached := "transcribe",
            input_type := "audio", transcript := some tr.text }).1.stage_reached
      (by rcases ht2.2 with h | h
          · exact Or.inr (Or.inl h)
          · exact Or.inr (Or.inr h))
    rw [ha]
    exact ⟨ht2.1, haudio.1, haudio.2⟩

end Seeker
